import Mathlib

/-!
Verification of the mortgage amortization engine of the chatbot repository.

The engine lives in two places in the source:
* `MortgageCalculation` (models module): a class whose constructor computes
  the level monthly payment, total cost, total interest and a payment
  breakdown from `propertyPrice`, `downPayment`, `interestRate` and
  `loanTermYears`.
* `calculateMortgage` / `calculateMortgageAdvanced` (MCP tools module): the
  basic tool wraps the class; the advanced tool adds PMI, property-tax and
  insurance escrow items on top of the basic result.

JavaScript numbers are modelled as exact rationals (`ℚ`); `Math.round` is
`fun x => ⌊x + 1/2⌋` on every finite input, and the source's monetary
rounding idiom `Math.round(x * 100) / 100` becomes `round2` below.
-/

namespace Chatbot

/-- JavaScript `Math.round`: round half toward positive infinity,
`Math.round x = ⌊x + 1/2⌋` for every finite `x`. -/
def jsRound (x : ℚ) : ℤ := (x + 1/2).floor

/-- The source's monetary rounding idiom `Math.round(x * 100) / 100`:
round to 2 decimal places (cents). -/
def round2 (x : ℚ) : ℚ := (jsRound (x * 100) : ℚ) / 100

/-- The `paymentBreakdown` object built by `MortgageCalculation.calculate`
(models module): `principalAndInterest`, `estimatedTaxes`,
`estimatedInsurance`. -/
structure PaymentBreakdown where
  principalAndInterest : ℚ
  estimatedTaxes : ℚ
  estimatedInsurance : ℚ
deriving DecidableEq, Repr

/-- The state of a `MortgageCalculation` object after its constructor ran
(equivalently, the JSON produced by `toJSON`). -/
structure MortgageCalculation where
  propertyPrice : ℚ
  downPayment : ℚ
  loanAmount : ℚ
  interestRate : ℚ
  loanTermYears : ℕ
  monthlyPayment : ℚ
  totalInterest : ℚ
  totalCost : ℚ
  paymentBreakdown : PaymentBreakdown
deriving DecidableEq, Repr

/-- The payment formula inside `MortgageCalculation.calculate`:
`if monthlyRate > 0 then loanAmount * (monthlyRate * (1+monthlyRate)^n) / ((1+monthlyRate)^n - 1)
else loanAmount / n`. -/
def mortgagePayment (loanAmount monthlyRate : ℚ) (numPayments : ℕ) : ℚ :=
  if monthlyRate > 0 then
    loanAmount * (monthlyRate * (1 + monthlyRate) ^ numPayments) /
      ((1 + monthlyRate) ^ numPayments - 1)
  else
    loanAmount / (numPayments : ℚ)

/-- `MortgageCalculation` constructor plus `calculate` from the models
module: `loanAmount = propertyPrice - downPayment`,
`monthlyRate = interestRate / 100 / 12`, `numPayments = loanTermYears * 12`;
`totalCost` and `totalInterest` are computed from the unrounded payment and
all monetary fields are rounded to cents at the end (`0.012` and `0.004`
are the hard-coded tax and insurance rates in the source). -/
def MortgageCalculation.calculate (propertyPrice downPayment interestRate : ℚ)
    (loanTermYears : ℕ) : MortgageCalculation :=
  let loanAmount := propertyPrice - downPayment
  let monthlyRate := interestRate / 100 / 12
  let numPayments := loanTermYears * 12
  let monthlyPayment := mortgagePayment loanAmount monthlyRate numPayments
  let totalCost := monthlyPayment * (numPayments : ℚ)
  let totalInterest := totalCost - loanAmount
  { propertyPrice := propertyPrice
    downPayment := downPayment
    loanAmount := loanAmount
    interestRate := interestRate
    loanTermYears := loanTermYears
    monthlyPayment := round2 monthlyPayment
    totalInterest := round2 totalInterest
    totalCost := round2 totalCost
    paymentBreakdown :=
      { principalAndInterest := round2 monthlyPayment
        estimatedTaxes := round2 (propertyPrice * 0.012 / 12)
        estimatedInsurance := round2 (propertyPrice * 0.004 / 12) } }

/-- The `calculateMortgage` MCP tool. Its body is
`try { return new MortgageCalculation({...}).toJSON() } catch (e) { return {error: ...} }`;
the constructor only performs arithmetic on numbers, which never throws in
JavaScript, so on numeric inputs the catch branch is unreachable and the
tool always returns the computed result. -/
def calculateMortgage (propertyPrice downPayment interestRate : ℚ)
    (loanTermYears : ℕ) : Except String MortgageCalculation :=
  Except.ok (MortgageCalculation.calculate propertyPrice downPayment interestRate loanTermYears)

/-- The `advancedDetails` object returned by `calculateMortgageAdvanced`. -/
structure AdvancedDetails where
  downPaymentPercent : ℚ
  monthlyPmi : ℚ
  monthlyPropertyTax : ℚ
  monthlyInsurance : ℚ
  totalMonthlyPayment : ℚ
  pmiRequired : Bool
deriving DecidableEq, Repr

/-- The full result of `calculateMortgageAdvanced`: the basic calculation
spread into the result plus the `advancedDetails` object. -/
structure AdvancedMortgage where
  basic : MortgageCalculation
  advancedDetails : AdvancedDetails
deriving DecidableEq, Repr

/-- The `calculateMortgageAdvanced` MCP tool (tool defaults in the source:
`loanTermYears = 30`, `pmiRate = 0.5`, `propertyTaxRate = 1.2`,
`insuranceRate = 0.4`). `totalMonthlyPayment` is computed from the already
rounded `basicCalc.monthlyPayment` and the unrounded PMI, tax and insurance
values; each field of `advancedDetails` is then rounded independently. -/
def calculateMortgageAdvanced (propertyPrice downPayment interestRate : ℚ)
    (loanTermYears : ℕ) (pmiRate propertyTaxRate insuranceRate : ℚ) : AdvancedMortgage :=
  let basicCalc := MortgageCalculation.calculate propertyPrice downPayment interestRate loanTermYears
  let loanAmount := propertyPrice - downPayment
  let downPaymentPercent := downPayment / propertyPrice * 100
  let monthlyPmi := if downPaymentPercent < 20 then loanAmount * pmiRate / 100 / 12 else 0
  let monthlyPropertyTax := propertyPrice * propertyTaxRate / 100 / 12
  let monthlyInsurance := propertyPrice * insuranceRate / 100 / 12
  let totalMonthlyPayment := basicCalc.monthlyPayment + monthlyPmi + monthlyPropertyTax +
    monthlyInsurance
  { basic := basicCalc
    advancedDetails :=
      { downPaymentPercent := round2 downPaymentPercent
        monthlyPmi := round2 monthlyPmi
        monthlyPropertyTax := round2 monthlyPropertyTax
        monthlyInsurance := round2 monthlyInsurance
        totalMonthlyPayment := round2 totalMonthlyPayment
        pmiRequired := decide (downPaymentPercent < 20) } }

/-- Sum of the inverse powers `x⁻¹ + x⁻² + ⋯ + x⁻ⁿ`: the annuity
present-value factor. `mortgagePayment L m n = L / invSum (1+m) n`
(proved below), which makes the monotonicity claims transparent. -/
def invSum (x : ℚ) (n : ℕ) : ℚ := ∑ k ∈ Finset.range n, (x⁻¹) ^ (k + 1)

theorem jsRound_eq_floor (x : ℚ) : jsRound x = ⌊x + 1/2⌋ :=
  (Rat.floor_def' _).trans Rat.floor_def.symm

theorem jsRound_eq_of_bounds (x : ℚ) (z : ℤ) (h1 : (z : ℚ) ≤ x + 1/2)
    (h2 : x + 1/2 < z + 1) : jsRound x = z := by
  rw [jsRound_eq_floor]
  exact Int.floor_eq_iff.mpr ⟨h1, by exact_mod_cast h2⟩

theorem round2_eq_of_bounds (x : ℚ) (z : ℤ) (h1 : (z : ℚ) ≤ x * 100 + 1/2)
    (h2 : x * 100 + 1/2 < z + 1) : round2 x = (z : ℚ) / 100 := by
  unfold round2
  rw [jsRound_eq_of_bounds (x * 100) z h1 h2]

theorem round2_zero : round2 0 = 0 := by
  rw [round2_eq_of_bounds 0 0 (by norm_num) (by norm_num)]
  norm_num

theorem round2_mono {x y : ℚ} (h : x ≤ y) : round2 x ≤ round2 y := by
  unfold round2
  have h1 : jsRound (x * 100) ≤ jsRound (y * 100) := by
    rw [jsRound_eq_floor, jsRound_eq_floor]
    exact Int.floor_le_floor (by linarith)
  have h2 : ((jsRound (x * 100) : ℚ)) ≤ (jsRound (y * 100) : ℚ) := by exact_mod_cast h1
  gcongr

theorem invSum_pos {x : ℚ} (hx : 0 < x) {n : ℕ} (hn : 1 ≤ n) : 0 < invSum x n := by
  unfold invSum
  exact Finset.sum_pos (fun k _ => pow_pos (inv_pos.mpr hx) _)
    (Finset.nonempty_range_iff.mpr (by omega))

/-- The annuity factor is strictly decreasing in the periodic rate. -/
theorem invSum_anti {x y : ℚ} (hx : 0 < x) (hxy : x < y) {n : ℕ} (hn : 1 ≤ n) :
    invSum y n < invSum x n := by
  unfold invSum
  apply Finset.sum_lt_sum_of_nonempty (Finset.nonempty_range_iff.mpr (by omega))
  intro k _
  exact pow_lt_pow_left₀ (inv_strictAnti₀ hx hxy)
    (le_of_lt (inv_pos.mpr (hx.trans hxy))) (Nat.succ_ne_zero k)

/-- The annuity factor is strictly increasing in the number of payments. -/
theorem invSum_strict_mono_n {x : ℚ} (hx : 0 < x) {m n : ℕ} (hmn : m < n) :
    invSum x m < invSum x n := by
  unfold invSum
  refine Finset.sum_lt_sum_of_subset (Finset.range_subset.mpr (le_of_lt hmn))
    (Finset.mem_range.mpr hmn) Finset.not_mem_range_self
    (pow_pos (inv_pos.mpr hx) _) ?_
  intro j _ _
  exact le_of_lt (pow_pos (inv_pos.mpr hx) _)

/-- For a strictly positive periodic rate the annuity factor is strictly
below the number of payments. -/
theorem invSum_lt_card {x : ℚ} (hx : 1 < x) {n : ℕ} (hn : 1 ≤ n) :
    invSum x n < (n : ℚ) := by
  have h0 : (0 : ℚ) < x := lt_trans zero_lt_one hx
  unfold invSum
  calc ∑ k ∈ Finset.range n, (x⁻¹) ^ (k + 1)
      < ∑ _k ∈ Finset.range n, (1 : ℚ) := by
        apply Finset.sum_lt_sum_of_nonempty (Finset.nonempty_range_iff.mpr (by omega))
        intro k _
        exact pow_lt_one₀ (le_of_lt (inv_pos.mpr h0)) (inv_lt_one_of_one_lt₀ hx) (Nat.succ_ne_zero k)
    _ = (n : ℚ) := by simp

/-- The source's payment formula is the textbook annuity payment
`loanAmount / invSum (1 + monthlyRate) numPayments`, uniformly in the two
branches of the `monthlyRate > 0` test. -/
theorem mortgagePayment_eq (L m : ℚ) (n : ℕ) (hm : 0 ≤ m) (hn : 1 ≤ n) :
    mortgagePayment L m n = L / invSum (1 + m) n := by
  rcases eq_or_lt_of_le hm with h0 | h0
  · subst h0
    rw [mortgagePayment, if_neg (lt_irrefl (0 : ℚ))]
    have hs : invSum (1 + 0 : ℚ) n = (n : ℚ) := by
      unfold invSum
      simp
    rw [hs]
  · set x : ℚ := 1 + m with hxdef
    have hx1 : 1 < x := by rw [hxdef]; linarith
    have hx0 : (0 : ℚ) < x := lt_trans zero_lt_one hx1
    have hxne : x ≠ 0 := ne_of_gt hx0
    have E1 : x ^ n * invSum x n = ∑ k ∈ Finset.range n, x ^ k := by
      unfold invSum
      rw [Finset.mul_sum, ← Finset.sum_range_reflect (fun j => x ^ j) n]
      apply Finset.sum_congr rfl
      intro k hk
      have hk' : k + 1 ≤ n := Finset.mem_range.mp hk
      rw [inv_pow, ← pow_sub₀ x hxne hk']
      congr 1
      omega
    have E2 : (∑ k ∈ Finset.range n, x ^ k) * m = x ^ n - 1 := by
      have hm' : x - 1 = m := by rw [hxdef]; ring
      rw [← hm']
      exact geom_sum_mul x n
    have hG : 0 < ∑ k ∈ Finset.range n, x ^ k :=
      Finset.sum_pos (fun k _ => pow_pos hx0 k) (Finset.nonempty_range_iff.mpr (by omega))
    have hden : 0 < x ^ n - 1 := by
      rw [← E2]
      exact mul_pos hG h0
    rw [mortgagePayment, if_pos h0]
    rw [div_eq_div_iff (ne_of_gt hden) (ne_of_gt (invSum_pos hx0 hn))]
    linear_combination L * m * E1 + L * E2

/-- The rounded fields of the basic result, in terms of the unrounded
payment. -/
theorem calculate_monthlyPayment (pp dp r : ℚ) (t : ℕ) :
    (MortgageCalculation.calculate pp dp r t).monthlyPayment
      = round2 (mortgagePayment (pp - dp) (r / 100 / 12) (t * 12)) := rfl

theorem calculate_totalCost (pp dp r : ℚ) (t : ℕ) :
    (MortgageCalculation.calculate pp dp r t).totalCost
      = round2 (mortgagePayment (pp - dp) (r / 100 / 12) (t * 12) * ((t * 12 : ℕ) : ℚ)) := rfl

theorem calculate_totalInterest (pp dp r : ℚ) (t : ℕ) :
    (MortgageCalculation.calculate pp dp r t).totalInterest
      = round2 (mortgagePayment (pp - dp) (r / 100 / 12) (t * 12) * ((t * 12 : ℕ) : ℚ)
          - (pp - dp)) := rfl

/-- Two quantities that land in the same cent bucket round to the same
monetary value. -/
theorem round2_congr {x y : ℚ} {z : ℤ} (hx1 : (z : ℚ) ≤ x * 100 + 1/2)
    (hx2 : x * 100 + 1/2 < z + 1) (hy1 : (z : ℚ) ≤ y * 100 + 1/2)
    (hy2 : y * 100 + 1/2 < z + 1) : round2 x = round2 y := by
  rw [round2_eq_of_bounds x z hx1 hx2, round2_eq_of_bounds y z hy1 hy2]

/-- Claim C1, counterexample: with `propertyPrice = downPayment = 100`
(so principal `= 0`), rate `5` and term `30`, the `calculateMortgage` tool
does not fail: it returns a result object (with a zero monthly payment)
instead of an `InvalidInput` error. -/
theorem c1_counterexample :
    calculateMortgage 100 100 5 30
      = Except.ok (MortgageCalculation.calculate 100 100 5 30) ∧
    (MortgageCalculation.calculate 100 100 5 30).monthlyPayment = 0 := by
  refine ⟨rfl, ?_⟩
  rw [calculate_monthlyPayment]
  have hp : mortgagePayment ((100 : ℚ) - 100) ((5 : ℚ) / 100 / 12) (30 * 12) = 0 := by
    rw [mortgagePayment, if_pos (by norm_num : (5 : ℚ) / 100 / 12 > 0)]
    simp
  rw [hp, round2_zero]

/-- Claim C1 (amended): the engine performs no input validation; with
`principal = propertyPrice - downPayment = 0` it raises no error and
returns a result object whose `monthlyPayment`, `totalCost` and
`totalInterest` are all `0`. -/
theorem c1_no_validation (propertyPrice interestRate : ℚ) (t : ℕ) (ht : 1 ≤ t) :
    calculateMortgage propertyPrice propertyPrice interestRate t
      = Except.ok (MortgageCalculation.calculate propertyPrice propertyPrice interestRate t) ∧
    (MortgageCalculation.calculate propertyPrice propertyPrice interestRate t).monthlyPayment
      = 0 ∧
    (MortgageCalculation.calculate propertyPrice propertyPrice interestRate t).totalCost = 0 ∧
    (MortgageCalculation.calculate propertyPrice propertyPrice interestRate t).totalInterest
      = 0 := by
  have hp : mortgagePayment (propertyPrice - propertyPrice) (interestRate / 100 / 12) (t * 12)
      = 0 := by
    rw [mortgagePayment]
    split
    · rw [sub_self, zero_mul, zero_div]
    · rw [sub_self, zero_div]
  have hti : (0 : ℚ) * ((t * 12 : ℕ) : ℚ) - (propertyPrice - propertyPrice) = 0 := by ring
  refine ⟨rfl, ?_, ?_, ?_⟩
  · rw [calculate_monthlyPayment, hp, round2_zero]
  · rw [calculate_totalCost, hp, zero_mul, round2_zero]
  · rw [calculate_totalInterest, hp, hti, round2_zero]

theorem c1_no_validation_witness :
    1 ≤ 30 ∧
    ((MortgageCalculation.calculate 100 100 5 30).monthlyPayment = 0 ∧
      (MortgageCalculation.calculate 100 100 5 30).totalCost = 0 ∧
      (MortgageCalculation.calculate 100 100 5 30).totalInterest = 0) :=
  ⟨by norm_num, (c1_no_validation 100 5 30 (by norm_num)).2⟩

/-- Claim C2: at a zero annual rate the payment is the straight-line
division `principal / (termYears * 12)` (then rounded to cents) and the
returned `totalInterest` is `0`. -/
theorem c2_zero_rate (propertyPrice downPayment : ℚ) (t : ℕ)
    (hL : 0 < propertyPrice - downPayment) (ht : 1 ≤ t) :
    (MortgageCalculation.calculate propertyPrice downPayment 0 t).monthlyPayment
      = round2 ((propertyPrice - downPayment) / ((t : ℚ) * 12)) ∧
    (MortgageCalculation.calculate propertyPrice downPayment 0 t).totalInterest = 0 := by
  have hn : ((t * 12 : ℕ) : ℚ) = (t : ℚ) * 12 := by push_cast; ring
  have hp : mortgagePayment (propertyPrice - downPayment) ((0 : ℚ) / 100 / 12) (t * 12)
      = (propertyPrice - downPayment) / ((t : ℚ) * 12) := by
    rw [mortgagePayment, if_neg (by norm_num), hn]
  have hc : ((t : ℚ) * 12) ≠ 0 := by
    have : (0 : ℚ) < (t : ℚ) := by exact_mod_cast Nat.pos_of_ne_zero (by omega)
    positivity
  constructor
  · rw [calculate_monthlyPayment, hp]
  · rw [calculate_totalInterest, hp, hn, div_mul_cancel₀ _ hc, sub_self, round2_zero]

theorem c2_zero_rate_witness :
    (0 : ℚ) < 100000 - 0 ∧
    ((MortgageCalculation.calculate 100000 0 0 30).monthlyPayment
        = round2 ((100000 - 0) / ((30 : ℚ) * 12)) ∧
      (MortgageCalculation.calculate 100000 0 0 30).totalInterest = 0) :=
  ⟨by norm_num, c2_zero_rate 100000 0 30 (by norm_num) (by norm_num)⟩

/-- Claim C3: the PMI branch. Below the 20% down-payment threshold the
returned `monthlyPmi` is `round2 (principal * pmiRate / 100 / 12)`, at or
above the threshold it is `0`; concretely, a 19.99% down payment with the
default rates yields a strictly positive `monthlyPmi` (and the exactly-20%
case is covered by the second conjunct). -/
theorem c3_pmi_threshold (propertyPrice downPayment interestRate pmiRate
    propertyTaxRate insuranceRate : ℚ) (t : ℕ) (hpp : 0 < propertyPrice) :
    (downPayment / propertyPrice * 100 < 20 →
      (calculateMortgageAdvanced propertyPrice downPayment interestRate t pmiRate
          propertyTaxRate insuranceRate).advancedDetails.monthlyPmi
        = round2 ((propertyPrice - downPayment) * pmiRate / 100 / 12)) ∧
    (20 ≤ downPayment / propertyPrice * 100 →
      (calculateMortgageAdvanced propertyPrice downPayment interestRate t pmiRate
          propertyTaxRate insuranceRate).advancedDetails.monthlyPmi = 0) ∧
    ((calculateMortgageAdvanced 10000 1999 8.75 30 0.5 1.2
          0.4).advancedDetails.downPaymentPercent = 19.99 ∧
      0 < (calculateMortgageAdvanced 10000 1999 8.75 30 0.5 1.2
          0.4).advancedDetails.monthlyPmi) := by
  refine ⟨?_, ?_, ?_, ?_⟩
  · intro h
    show round2 (if downPayment / propertyPrice * 100 < 20
        then (propertyPrice - downPayment) * pmiRate / 100 / 12 else 0)
      = round2 ((propertyPrice - downPayment) * pmiRate / 100 / 12)
    rw [if_pos h]
  · intro h
    show round2 (if downPayment / propertyPrice * 100 < 20
        then (propertyPrice - downPayment) * pmiRate / 100 / 12 else 0) = 0
    rw [if_neg (not_lt.mpr h), round2_zero]
  · show round2 ((1999 : ℚ) / 10000 * 100) = 19.99
    rw [round2_eq_of_bounds _ 1999 (by norm_num) (by norm_num)]
    norm_num
  · show 0 < round2 (if (1999 : ℚ) / 10000 * 100 < 20
        then ((10000 : ℚ) - 1999) * 0.5 / 100 / 12 else 0)
    rw [if_pos (by norm_num : (1999 : ℚ) / 10000 * 100 < 20),
      round2_eq_of_bounds _ 333 (by norm_num) (by norm_num)]
    norm_num

theorem c3_pmi_threshold_witness :
    (0 : ℚ) < 10000 ∧
    (calculateMortgageAdvanced 10000 1999 8.75 30 0.5 1.2 0.4).advancedDetails.monthlyPmi
      = round2 ((10000 - 1999) * 0.5 / 100 / 12) :=
  ⟨by norm_num,
    (c3_pmi_threshold 10000 1999 8.75 0.5 1.2 0.4 30 (by norm_num)).1 (by norm_num)⟩

/-- Claim C4: for positive-rate inputs the identities
`totalPaid = periodicPayment * numberOfPayments` and
`totalInterest = totalPaid - principal` hold on the computed (unrounded)
quantities, `totalInterest > 0` before rounding, and every monetary output
is the cent-rounding of the corresponding quantity. -/
theorem c4_totals (propertyPrice downPayment interestRate : ℚ) (t : ℕ)
    (hL : 0 < propertyPrice - downPayment) (hr : 0 < interestRate) (ht : 1 ≤ t) :
    (MortgageCalculation.calculate propertyPrice downPayment interestRate t).monthlyPayment
      = round2 (mortgagePayment (propertyPrice - downPayment)
          (interestRate / 100 / 12) (t * 12)) ∧
    (MortgageCalculation.calculate propertyPrice downPayment interestRate t).totalCost
      = round2 (mortgagePayment (propertyPrice - downPayment)
          (interestRate / 100 / 12) (t * 12) * ((t * 12 : ℕ) : ℚ)) ∧
    (MortgageCalculation.calculate propertyPrice downPayment interestRate t).totalInterest
      = round2 (mortgagePayment (propertyPrice - downPayment)
          (interestRate / 100 / 12) (t * 12) * ((t * 12 : ℕ) : ℚ)
            - (propertyPrice - downPayment)) ∧
    0 < mortgagePayment (propertyPrice - downPayment)
          (interestRate / 100 / 12) (t * 12) * ((t * 12 : ℕ) : ℚ)
        - (propertyPrice - downPayment) := by
  refine ⟨calculate_monthlyPayment .., calculate_totalCost .., calculate_totalInterest .., ?_⟩
  have hm0 : 0 < interestRate / 100 / 12 := by positivity
  have hn : 1 ≤ t * 12 := by omega
  have hx1 : (1 : ℚ) < 1 + interestRate / 100 / 12 := by linarith
  have hx0 : (0 : ℚ) < 1 + interestRate / 100 / 12 := by linarith
  rw [mortgagePayment_eq _ _ _ (le_of_lt hm0) hn]
  have hT : invSum (1 + interestRate / 100 / 12) (t * 12) < ((t * 12 : ℕ) : ℚ) :=
    invSum_lt_card hx1 hn
  have hTpos : 0 < invSum (1 + interestRate / 100 / 12) (t * 12) := invSum_pos hx0 hn
  have h1 : (propertyPrice - downPayment) / ((t * 12 : ℕ) : ℚ)
      < (propertyPrice - downPayment) / invSum (1 + interestRate / 100 / 12) (t * 12) :=
    div_lt_div_of_pos_left hL hTpos hT
  have hnQ : (0 : ℚ) < ((t * 12 : ℕ) : ℚ) := by
    exact_mod_cast Nat.pos_of_ne_zero (by omega)
  have h2 := (div_lt_iff₀ hnQ).mp h1
  linarith

theorem c4_totals_witness :
    (0 : ℚ) < 100000 - 0 ∧
    0 < mortgagePayment (100000 - 0) ((5 : ℚ) / 100 / 12) (30 * 12) * ((30 * 12 : ℕ) : ℚ)
        - (100000 - 0) :=
  ⟨by norm_num, (c4_totals 100000 0 5 30 (by norm_num) (by norm_num) (by norm_num)).2.2.2⟩

/-- Claim C5, counterexample: at `principal = 5000000`, rate `8.75`,
term `20`, the payment the code returns rounds to `44186` whole currency
units, not `43929`. -/
theorem c5_counterexample :
    jsRound (MortgageCalculation.calculate 5000000 0 8.75 20).monthlyPayment = 44186 ∧
    (44186 : ℤ) ≠ 43929 := by
  constructor
  · rw [calculate_monthlyPayment]
    have hp : round2 (mortgagePayment ((5000000 : ℚ) - 0) ((8.75 : ℚ) / 100 / 12) (20 * 12))
        = ((4418554 : ℤ) : ℚ) / 100 := by
      rw [mortgagePayment, if_pos (by norm_num : (8.75 : ℚ) / 100 / 12 > 0)]
      exact round2_eq_of_bounds _ 4418554 (by norm_num) (by norm_num)
    rw [hp]
    exact jsRound_eq_of_bounds _ 44186 (by norm_num) (by norm_num)
  · decide

/-- Claim C5 (amended): at `principal = 5000000`, rate `8.75`, term `20`
the code returns `periodicPayment = 44185.54` (so `44186` to the nearest
whole unit) and `totalInterest = 5604528.51` (so `5604529` to the nearest
whole unit). -/
theorem c5_example_values :
    (MortgageCalculation.calculate 5000000 0 8.75 20).monthlyPayment = 4418554 / 100 ∧
    (MortgageCalculation.calculate 5000000 0 8.75 20).totalInterest = 560452851 / 100 ∧
    jsRound (MortgageCalculation.calculate 5000000 0 8.75 20).totalInterest = 5604529 := by
  have hmp : (MortgageCalculation.calculate 5000000 0 8.75 20).monthlyPayment
      = ((4418554 : ℤ) : ℚ) / 100 := by
    rw [calculate_monthlyPayment, mortgagePayment,
      if_pos (by norm_num : (8.75 : ℚ) / 100 / 12 > 0)]
    exact round2_eq_of_bounds _ 4418554 (by norm_num) (by norm_num)
  have hti : (MortgageCalculation.calculate 5000000 0 8.75 20).totalInterest
      = ((560452851 : ℤ) : ℚ) / 100 := by
    rw [calculate_totalInterest, mortgagePayment,
      if_pos (by norm_num : (8.75 : ℚ) / 100 / 12 > 0)]
    exact round2_eq_of_bounds _ 560452851 (by norm_num) (by norm_num)
  refine ⟨?_, ?_, ?_⟩
  · rw [hmp]; norm_num
  · rw [hti]; norm_num
  · rw [hti]
    exact jsRound_eq_of_bounds _ 5604529 (by norm_num) (by norm_num)

/-- Claim C6: the advanced result's `totalMonthlyPayment` is the single
rounding of `periodicPayment + monthlyPmi + monthlyPropertyTax +
monthlyInsurance` (the base payment entering the sum at its own rounding
point, the escrow components at full precision), and each component field
is rounded to cents independently from its own raw value. -/
theorem c6_total_monthly (propertyPrice downPayment interestRate pmiRate
    propertyTaxRate insuranceRate : ℚ) (t : ℕ) :
    (calculateMortgageAdvanced propertyPrice downPayment interestRate t pmiRate
        propertyTaxRate insuranceRate).advancedDetails.totalMonthlyPayment
      = round2 ((MortgageCalculation.calculate propertyPrice downPayment interestRate
            t).monthlyPayment
          + (if downPayment / propertyPrice * 100 < 20
              then (propertyPrice - downPayment) * pmiRate / 100 / 12 else 0)
          + propertyPrice * propertyTaxRate / 100 / 12
          + propertyPrice * insuranceRate / 100 / 12) ∧
    (calculateMortgageAdvanced propertyPrice downPayment interestRate t pmiRate
        propertyTaxRate insuranceRate).advancedDetails.monthlyPmi
      = round2 (if downPayment / propertyPrice * 100 < 20
          then (propertyPrice - downPayment) * pmiRate / 100 / 12 else 0) ∧
    (calculateMortgageAdvanced propertyPrice downPayment interestRate t pmiRate
        propertyTaxRate insuranceRate).advancedDetails.monthlyPropertyTax
      = round2 (propertyPrice * propertyTaxRate / 100 / 12) ∧
    (calculateMortgageAdvanced propertyPrice downPayment interestRate t pmiRate
        propertyTaxRate insuranceRate).advancedDetails.monthlyInsurance
      = round2 (propertyPrice * insuranceRate / 100 / 12) :=
  ⟨rfl, rfl, rfl, rfl⟩

/-- Claim C9: both operations are pure functions of their inputs; two calls
with identical inputs return identical results. -/
theorem c9_deterministic (propertyPrice downPayment interestRate pmiRate
    propertyTaxRate insuranceRate : ℚ) (t : ℕ) :
    MortgageCalculation.calculate propertyPrice downPayment interestRate t
      = MortgageCalculation.calculate propertyPrice downPayment interestRate t ∧
    calculateMortgage propertyPrice downPayment interestRate t
      = calculateMortgage propertyPrice downPayment interestRate t ∧
    calculateMortgageAdvanced propertyPrice downPayment interestRate t pmiRate
        propertyTaxRate insuranceRate
      = calculateMortgageAdvanced propertyPrice downPayment interestRate t pmiRate
        propertyTaxRate insuranceRate :=
  ⟨rfl, rfl, rfl⟩

/-- Claim C10: the `pmiRequired` flag is exactly the test
`downPayment / propertyPrice * 100 < 20`, independent of `pmiRate`; with
`pmiRate = 0` and a sub-20% down payment the flag is `true` while the
charged `monthlyPmi` is `0`. -/
theorem c10_pmi_flag (propertyPrice downPayment interestRate pmiRate1 pmiRate2
    propertyTaxRate insuranceRate : ℚ) (t : ℕ) :
    (calculateMortgageAdvanced propertyPrice downPayment interestRate t pmiRate1
        propertyTaxRate insuranceRate).advancedDetails.pmiRequired
      = decide (downPayment / propertyPrice * 100 < 20) ∧
    (calculateMortgageAdvanced propertyPrice downPayment interestRate t pmiRate1
        propertyTaxRate insuranceRate).advancedDetails.pmiRequired
      = (calculateMortgageAdvanced propertyPrice downPayment interestRate t pmiRate2
        propertyTaxRate insuranceRate).advancedDetails.pmiRequired ∧
    (downPayment / propertyPrice * 100 < 20 →
      (calculateMortgageAdvanced propertyPrice downPayment interestRate t 0
          propertyTaxRate insuranceRate).advancedDetails.pmiRequired = true ∧
      (calculateMortgageAdvanced propertyPrice downPayment interestRate t 0
          propertyTaxRate insuranceRate).advancedDetails.monthlyPmi = 0) := by
  refine ⟨rfl, rfl, fun h => ⟨?_, ?_⟩⟩
  · show decide (downPayment / propertyPrice * 100 < 20) = true
    exact decide_eq_true h
  · show round2 (if downPayment / propertyPrice * 100 < 20
        then (propertyPrice - downPayment) * 0 / 100 / 12 else 0) = 0
    rw [if_pos h]
    have hz : (propertyPrice - downPayment) * 0 / 100 / 12 = (0 : ℚ) := by ring
    rw [hz, round2_zero]

theorem c10_pmi_flag_witness :
    (calculateMortgageAdvanced 10000 1999 8.75 30 0 1.2 0.4).advancedDetails.pmiRequired
      = true ∧
    (calculateMortgageAdvanced 10000 1999 8.75 30 0 1.2 0.4).advancedDetails.monthlyPmi
      = 0 :=
  (c10_pmi_flag 10000 1999 8.75 0 0 1.2 0.4 30).2.2 (by norm_num)

/-- Claim C7, counterexample: the *returned* payment is rounded to cents,
so it is not strictly increasing in the rate: rates `5` and
`5 + 1/1000000` (with `principal = 100000`, term `30`) produce the same
returned `monthlyPayment`. -/
theorem c7_counterexample :
    (5 : ℚ) < 5 + 1/1000000 ∧
    (MortgageCalculation.calculate 100000 0 5 30).monthlyPayment
      = (MortgageCalculation.calculate 100000 0 (5 + 1/1000000) 30).monthlyPayment := by
  refine ⟨by norm_num, ?_⟩
  rw [calculate_monthlyPayment, calculate_monthlyPayment]
  exact round2_congr (z := 53682)
    (by rw [mortgagePayment, if_pos (by norm_num : (5 : ℚ) / 100 / 12 > 0)]; norm_num)
    (by rw [mortgagePayment, if_pos (by norm_num : (5 : ℚ) / 100 / 12 > 0)]; norm_num)
    (by rw [mortgagePayment,
          if_pos (by norm_num : ((5 : ℚ) + 1/1000000) / 100 / 12 > 0)]; norm_num)
    (by rw [mortgagePayment,
          if_pos (by norm_num : ((5 : ℚ) + 1/1000000) / 100 / 12 > 0)]; norm_num)

/-- Claim C7 (amended): with `principal` and `termYears` fixed, the
computed (pre-rounding) payment is strictly increasing in
`annualRatePercent`; the returned, cent-rounded `monthlyPayment` is
therefore weakly increasing (distinct rates can return equal payments). -/
theorem c7_payment_mono_rate (propertyPrice downPayment r1 r2 : ℚ) (t : ℕ)
    (hL : 0 < propertyPrice - downPayment) (ht : 1 ≤ t) (hr1 : 0 ≤ r1) (hr12 : r1 < r2) :
    mortgagePayment (propertyPrice - downPayment) (r1 / 100 / 12) (t * 12)
      < mortgagePayment (propertyPrice - downPayment) (r2 / 100 / 12) (t * 12) ∧
    (MortgageCalculation.calculate propertyPrice downPayment r1 t).monthlyPayment
      ≤ (MortgageCalculation.calculate propertyPrice downPayment r2 t).monthlyPayment := by
  have hm1 : 0 ≤ r1 / 100 / 12 := by positivity
  have hmm : r1 / 100 / 12 < r2 / 100 / 12 := by linarith
  have hn : 1 ≤ t * 12 := by omega
  have hx1 : (0 : ℚ) < 1 + r1 / 100 / 12 := by linarith
  have hx2 : (0 : ℚ) < 1 + r2 / 100 / 12 := by linarith
  have hlt : (1 : ℚ) + r1 / 100 / 12 < 1 + r2 / 100 / 12 := by linarith
  have key : mortgagePayment (propertyPrice - downPayment) (r1 / 100 / 12) (t * 12)
      < mortgagePayment (propertyPrice - downPayment) (r2 / 100 / 12) (t * 12) := by
    rw [mortgagePayment_eq _ _ _ hm1 hn,
      mortgagePayment_eq _ _ _ (le_of_lt (lt_of_le_of_lt hm1 hmm)) hn]
    exact div_lt_div_of_pos_left hL (invSum_pos hx2 hn) (invSum_anti hx1 hlt hn)
  refine ⟨key, ?_⟩
  rw [calculate_monthlyPayment, calculate_monthlyPayment]
  exact round2_mono (le_of_lt key)

theorem c7_payment_mono_rate_witness :
    (0 : ℚ) ≤ 3 ∧
    (mortgagePayment (100000 - 0) ((3 : ℚ) / 100 / 12) (30 * 12)
        < mortgagePayment (100000 - 0) ((5 : ℚ) / 100 / 12) (30 * 12) ∧
      (MortgageCalculation.calculate 100000 0 3 30).monthlyPayment
        ≤ (MortgageCalculation.calculate 100000 0 5 30).monthlyPayment) :=
  ⟨by norm_num,
    c7_payment_mono_rate 100000 0 3 5 30 (by norm_num) (by norm_num) (by norm_num)
      (by norm_num)⟩

/-- Claim C8, counterexample: the *returned* payment is rounded to cents,
so it is not strictly decreasing in the term: with `principal = 0.01` and
rate `5`, terms `1` and `2` both return a `monthlyPayment` of `0`. -/
theorem c8_counterexample :
    1 < 2 ∧
    (MortgageCalculation.calculate (1/100) 0 5 1).monthlyPayment
      = (MortgageCalculation.calculate (1/100) 0 5 2).monthlyPayment := by
  refine ⟨by norm_num, ?_⟩
  rw [calculate_monthlyPayment, calculate_monthlyPayment]
  exact round2_congr (z := 0)
    (by rw [mortgagePayment, if_pos (by norm_num : (5 : ℚ) / 100 / 12 > 0)]; norm_num)
    (by rw [mortgagePayment, if_pos (by norm_num : (5 : ℚ) / 100 / 12 > 0)]; norm_num)
    (by rw [mortgagePayment, if_pos (by norm_num : (5 : ℚ) / 100 / 12 > 0)]; norm_num)
    (by rw [mortgagePayment, if_pos (by norm_num : (5 : ℚ) / 100 / 12 > 0)]; norm_num)

/-- Claim C8 (amended): with `principal` and a positive rate fixed, the
computed (pre-rounding) payment is strictly decreasing in `termYears`; the
returned, cent-rounded `monthlyPayment` is therefore weakly decreasing
(distinct terms can return equal payments). -/
theorem c8_payment_antitone_term (propertyPrice downPayment r : ℚ) (t1 t2 : ℕ)
    (hL : 0 < propertyPrice - downPayment) (hr : 0 < r) (ht1 : 1 ≤ t1) (ht12 : t1 < t2) :
    mortgagePayment (propertyPrice - downPayment) (r / 100 / 12) (t2 * 12)
      < mortgagePayment (propertyPrice - downPayment) (r / 100 / 12) (t1 * 12) ∧
    (MortgageCalculation.calculate propertyPrice downPayment r t2).monthlyPayment
      ≤ (MortgageCalculation.calculate propertyPrice downPayment r t1).monthlyPayment := by
  have hm : 0 < r / 100 / 12 := by positivity
  have hx0 : (0 : ℚ) < 1 + r / 100 / 12 := by linarith
  have hn1 : 1 ≤ t1 * 12 := by omega
  have hn2 : 1 ≤ t2 * 12 := by omega
  have hnn : t1 * 12 < t2 * 12 := by omega
  have key : mortgagePayment (propertyPrice - downPayment) (r / 100 / 12) (t2 * 12)
      < mortgagePayment (propertyPrice - downPayment) (r / 100 / 12) (t1 * 12) := by
    rw [mortgagePayment_eq _ _ _ (le_of_lt hm) hn2, mortgagePayment_eq _ _ _ (le_of_lt hm) hn1]
    exact div_lt_div_of_pos_left hL (invSum_pos hx0 hn1) (invSum_strict_mono_n hx0 hnn)
  refine ⟨key, ?_⟩
  rw [calculate_monthlyPayment, calculate_monthlyPayment]
  exact round2_mono (le_of_lt key)

theorem c8_payment_antitone_term_witness :
    (0 : ℚ) < 5 ∧
    (mortgagePayment (100000 - 0) ((5 : ℚ) / 100 / 12) (30 * 12)
        < mortgagePayment (100000 - 0) ((5 : ℚ) / 100 / 12) (15 * 12) ∧
      (MortgageCalculation.calculate 100000 0 5 30).monthlyPayment
        ≤ (MortgageCalculation.calculate 100000 0 5 15).monthlyPayment) :=
  ⟨by norm_num,
    c8_payment_antitone_term 100000 0 5 15 30 (by norm_num) (by norm_num) (by norm_num)
      (by norm_num)⟩

end Chatbot
